import Mathlib

/-!
Shallow embedding of the monitoring core of the bikeshare-elt-pipeline
repository: `src/scripts/monitor_data_quality.py` (class `DataQualityMonitor`)
and `src/scripts/monitor_pipeline.py` (class `PipelineMonitor`).

Modelling conventions:
* pandas dataframes become `DataFrame`: a column schema (name and dtype kind)
  plus a list of rows, a row mapping column names to cells;
* timestamps are rationals measured in hours, so `(a - b).total_seconds()/3600`
  becomes plain subtraction;
* Python float arithmetic is modelled over `ℚ`; `round(x, 2)` becomes
  `pyRound2` (rounding to hundredths);
* a numpy division whose denominator is zero yields NaN/inf, not an exception:
  modelled as `none : Option ℚ`, and every ordered comparison against NaN/inf
  used by the source (`nan <= t`, `inf <= t`) is `false`, which is what the
  `Option.rec` in `ComplMetric.is_complete` produces;
* Python-level `/` on ints raises `ZeroDivisionError`, dict subscripting a
  missing key raises `KeyError`, `NaT.strftime` raises `ValueError`: these
  become `Except PyErr` results.
-/

namespace Bikeshare

/-- Python exceptions that the embedded code can raise. -/
inductive PyErr
  | zeroDivision
  | keyError
  | valueError
  deriving DecidableEq, Repr

/-- One dataframe cell: a SQL NULL / NaN, an integer value, or a timestamp
(in hours). -/
inductive Cell
  | null
  | intVal (n : Int)
  | dateVal (t : ℚ)
  deriving DecidableEq

/-- The dtype kind of a column, as far as the monitor's checks care:
`numeric` is what `select_dtypes(include=[np.number])` selects. -/
inductive ColTy
  | numeric
  | datetime
  | text
  deriving DecidableEq

/-- A dataframe row: a mapping from column name to cell. -/
def Row : Type := String → Cell

/-- A pandas dataframe as the monitor sees it: named, typed columns and rows. -/
structure DataFrame where
  cols : List (String × ColTy)
  rows : List Row

/-- `'c' in df.columns`. -/
def DataFrame.hasCol (df : DataFrame) (c : String) : Bool :=
  df.cols.any (fun p => p.1 = c)

/-- `df.select_dtypes(include=[np.number]).columns`. -/
def DataFrame.numericCols (df : DataFrame) : List String :=
  (df.cols.filter (fun p => p.2 = ColTy.numeric)).map (fun p => p.1)

/-- Read one cell as an optional integer (NULL / non-numeric ↦ none). -/
def Cell.asInt : Cell → Option Int
  | Cell.intVal n => some n
  | _ => none

/-- Count of rows whose cell in column `c` is NULL: `df[c].isnull().sum()`. -/
def DataFrame.nullCount (df : DataFrame) (c : String) : Nat :=
  df.rows.countP (fun r => r c = Cell.null)

/-- The non-null timestamps of the `date` column. -/
def DataFrame.dateVals (df : DataFrame) : List ℚ :=
  df.rows.filterMap (fun r =>
    match r "date" with
    | Cell.dateVal t => some t
    | _ => none)

/-- `df['date'].max()` (pandas skips nulls); `none` is `NaT`. -/
def DataFrame.maxDate (df : DataFrame) : Option ℚ :=
  df.dateVals.foldl (fun acc t =>
    match acc with
    | none => some t
    | some m => some (max m t)) none

/-- Python's `round(x, 2)` modelled over `ℚ` (rounding to hundredths;
Python's float round-half-to-even and this rational rounding agree away from
exact midpoints of a hundredth). -/
def pyRound2 (q : ℚ) : ℚ := ((round (q * 100) : ℤ) : ℚ) / 100

/-- `self.thresholds` of `DataQualityMonitor.__init__`. -/
structure Thresholds where
  completeness : ℚ
  accuracy : ℚ
  timeliness : ℚ
  consistency : ℚ
  deriving DecidableEq

/-- The hard-coded threshold values of `DataQualityMonitor.__init__`. -/
def defaultThresholds : Thresholds :=
  { completeness := 95/100
    accuracy := 90/100
    timeliness := 24
    consistency := 95/100 }

/-- One entry of `completeness_metrics` in `check_completeness`. -/
structure ComplMetric where
  null_count : Nat
  null_percentage : Option ℚ
  is_complete : Bool
  deriving DecidableEq

/-- The body of the per-column loop of `check_completeness`: `nNull` nulls out
of `rows` rows against completeness threshold `t`.  `null_percentage` is the
numpy quotient `(null_counts[column] / total_rows) * 100`, which is NaN or inf
when `total_rows = 0` (modelled `none`); the NaN/inf comparison
`null_percentage <= (1 - t) * 100` is `False` in Python, hence `false` here. -/
def colCompleteness (nNull rows : Nat) (t : ℚ) : ComplMetric :=
  if rows = 0 then
    { null_count := nNull, null_percentage := none, is_complete := false }
  else
    let p : ℚ := ((nNull : ℚ) / (rows : ℚ)) * 100
    { null_count := nNull
      null_percentage := some (pyRound2 p)
      is_complete := decide (p ≤ (1 - t) * 100) }

/-- `DataQualityMonitor.check_completeness`. -/
def checkCompleteness (df : DataFrame) (th : Thresholds) :
    List (String × ComplMetric) :=
  df.cols.map (fun p =>
    (p.1, colCompleteness (df.nullCount p.1) df.rows.length th.completeness))

/-- One entry of `accuracy_metrics` in `check_accuracy` (for a numeric column
the count is `negative_count`, for the date column it is `future_dates`). -/
structure AccMetric where
  violation_count : Nat
  is_accurate : Bool
  deriving DecidableEq

/-- `DataQualityMonitor.check_accuracy`.  `now` is the value of the
`datetime.now()` call the source makes inside the method. -/
def checkAccuracy (df : DataFrame) (now : ℚ) : List (String × AccMetric) :=
  let numeric := df.numericCols.map (fun c =>
    let neg := df.rows.countP (fun r =>
      match r c with
      | Cell.intVal n => n < 0
      | _ => false)
    (c, { violation_count := neg, is_accurate := neg = 0 : AccMetric }))
  if df.hasCol "date" then
    let fut := df.rows.countP (fun r =>
      match r "date" with
      | Cell.dateVal t => now < t
      | _ => false)
    numeric ++ [("date", { violation_count := fut, is_accurate := fut = 0 })]
  else
    numeric

/-- The `timeliness_metrics` dict of `check_timeliness` when non-empty. -/
structure TimelMetric where
  latest_date : ℚ
  hours_delay : ℚ
  is_timely : Bool
  deriving DecidableEq

/-- `DataQualityMonitor.check_timeliness`; `now` is its internal
`datetime.now()`.  Returns `.ok none` (the empty dict) when there is no
`date` column.  When the column exists but holds no timestamp (zero rows or
all NULL), `df['date'].max()` is `NaT` and `latest_date.strftime(...)` raises
`ValueError`, hence `.error .valueError`. -/
def checkTimeliness (df : DataFrame) (th : Thresholds) (now : ℚ) :
    Except PyErr (Option TimelMetric) :=
  if df.hasCol "date" then
    match df.maxDate with
    | none => Except.error PyErr.valueError
    | some d =>
        let delay : ℚ := now - d
        Except.ok (some
          { latest_date := d
            hours_delay := pyRound2 delay
            is_timely := decide (delay ≤ th.timeliness) })
  else
    Except.ok none

/-- The `user_counts` entry of `consistency_metrics` in `check_consistency`. -/
structure ConsMetric where
  inconsistent_rows : Nat
  consistency_percentage : ℚ
  is_consistent : Bool
  deriving DecidableEq

/-- The declared consistency invariant's columns. -/
def consistencyCols : List String :=
  ["total_rentals", "casual_users", "registered_users"]

/-- `all(col in df.columns for col in [...])`. -/
def DataFrame.hasConsistencyCols (df : DataFrame) : Bool :=
  consistencyCols.all df.hasCol

/-- A row violating `total_rentals = casual_users + registered_users`.  In
pandas, a comparison involving NaN under `!=` is `True`, so a row with any of
the three cells NULL counts as inconsistent. -/
def rowInconsistent (r : Row) : Bool :=
  match (r "total_rentals").asInt, (r "casual_users").asInt,
      (r "registered_users").asInt with
  | some a, some b, some c => a ≠ b + c
  | _, _, _ => true

/-- `DataQualityMonitor.check_consistency`.  `inconsistent_rows/total_rows`
is Python integer division with `/`, which raises `ZeroDivisionError` on a
zero-row dataframe that has the three columns. -/
def checkConsistency (df : DataFrame) (th : Thresholds) :
    Except PyErr (List (String × ConsMetric)) :=
  if df.hasConsistencyCols then
    let inc := df.rows.countP rowInconsistent
    let total := df.rows.length
    if total = 0 then
      Except.error PyErr.zeroDivision
    else
      let frac : ℚ := 1 - (inc : ℚ) / (total : ℚ)
      Except.ok [("user_counts",
        { inconsistent_rows := inc
          consistency_percentage := pyRound2 (frac * 100)
          is_consistent := decide (frac ≥ th.consistency) })]
  else
    Except.ok []

/-- The `metrics` dict assembled by `run_quality_check`. -/
structure QMetrics where
  completeness : List (String × ComplMetric)
  accuracy : List (String × AccMetric)
  timeliness : Option TimelMetric
  consistency : List (String × ConsMetric)
  deriving DecidableEq

/-- Assembly of the `metrics` dict in `run_quality_check`, in source order:
completeness and accuracy never raise; an exception from timeliness or
consistency aborts the check. -/
def runChecks (df : DataFrame) (th : Thresholds) (now : ℚ) :
    Except PyErr QMetrics :=
  let c := checkCompleteness df th
  let a := checkAccuracy df now
  match checkTimeliness df th now with
  | Except.error e => Except.error e
  | Except.ok t =>
    match checkConsistency df th with
    | Except.error e => Except.error e
    | Except.ok s =>
      Except.ok { completeness := c, accuracy := a, timeliness := t, consistency := s }

/-- The `weights` dict of `calculate_quality_score`. -/
def weights : List (String × ℚ) :=
  [("completeness", 3/10), ("accuracy", 3/10),
   ("timeliness", 2/10), ("consistency", 2/10)]

/-- `weights[metric]`. -/
def weightOf (k : String) : ℚ := (weights.lookup k).getD 0

/-- `sum(1 for m in metrics[dim].values() if passes(m)) / len(metrics[dim])`:
Python `/` on a zero-length dict raises `ZeroDivisionError`. -/
def fracPass {M : Type} (l : List (String × M)) (passes : M → Bool) :
    Except PyErr ℚ :=
  if l.length = 0 then Except.error PyErr.zeroDivision
  else Except.ok ((l.countP (fun p => passes p.2) : ℚ) / (l.length : ℚ))

/-- `DataQualityMonitor.calculate_quality_score`.  The `scores` dict literal
evaluates its entries in order completeness, accuracy, timeliness,
consistency; `metrics['timeliness']['is_timely']` on the empty dict raises
`KeyError`. -/
def calculateQualityScore (m : QMetrics) : Except PyErr ℚ :=
  match fracPass m.completeness (fun x => x.is_complete) with
  | Except.error e => Except.error e
  | Except.ok sc =>
    match fracPass m.accuracy (fun x => x.is_accurate) with
    | Except.error e => Except.error e
    | Except.ok sa =>
      match m.timeliness with
      | none => Except.error PyErr.keyError
      | some t =>
        let st : ℚ := if t.is_timely then 1 else 0
        match fracPass m.consistency (fun x => x.is_consistent) with
        | Except.error e => Except.error e
        | Except.ok so =>
          let quality_score :=
            sc * weightOf "completeness" + sa * weightOf "accuracy" +
            st * weightOf "timeliness" + so * weightOf "consistency"
          Except.ok (pyRound2 (quality_score * 100))

/-- The quality-evaluation pipeline of `run_quality_check` from a loaded
dataframe to the overall score (checks, then score). -/
def evaluateScore (df : DataFrame) (th : Thresholds) (now : ℚ) :
    Except PyErr ℚ :=
  match runChecks df th now with
  | Except.error e => Except.error e
  | Except.ok m => calculateQualityScore m

/-! ### Configuration (`DataQualityMonitor.__init__`) -/

/-- The process environment (`os.getenv`). -/
def Env : Type := String → Option String

/-- `os.getenv(k, d)`. -/
def getenvD (env : Env) (k d : String) : String := (env k).getD d

/-- Python's `s.split(',')` (on the empty string it yields `['']`). -/
def pySplitComma (s : String) : List String := s.splitOn ","

/-- `self.conn_params` of `DataQualityMonitor.__init__`. -/
structure ConnParams where
  account : Option String
  user : Option String
  password : Option String
  database : Option String
  schemaName : Option String
  warehouse : Option String
  role : Option String

/-- `self.alert_settings` of `DataQualityMonitor.__init__`. -/
structure AlertSettings where
  email_enabled : Bool
  email_recipients : List String
  slack_webhook : String
  alert_threshold : ℚ

/-- The whole state built by `DataQualityMonitor.__init__`. -/
structure MonitorState where
  conn_params : ConnParams
  thresholds : Thresholds
  alert_settings : AlertSettings

/-- The configuration failure the specification's error taxonomy names. -/
inductive ConfigError
  | configValidation
  deriving DecidableEq

/-- `DataQualityMonitor.__init__`: reads connection parameters and alert
settings from the environment and installs the hard-coded thresholds.  The
source constructor contains no validation of any kind, so the embedding
returns `.ok` on every environment; the `Except ConfigError` type records
that no failure path exists. -/
def initMonitor (env : Env) : Except ConfigError MonitorState :=
  Except.ok
    { conn_params :=
        { account := env "SNOWFLAKE_ACCOUNT"
          user := env "SNOWFLAKE_USER"
          password := env "SNOWFLAKE_PASSWORD"
          database := env "SNOWFLAKE_DATABASE"
          schemaName := env "SNOWFLAKE_SCHEMA"
          warehouse := env "SNOWFLAKE_WAREHOUSE"
          role := env "SNOWFLAKE_ROLE" }
      thresholds := defaultThresholds
      alert_settings :=
        { email_enabled := true
          email_recipients := pySplitComma (getenvD env "ALERT_EMAIL_RECIPIENTS" "")
          slack_webhook := getenvD env "SLACK_WEBHOOK_URL" ""
          alert_threshold := 9/10 } }

/-- The environment with every configuration variable unset. -/
def emptyEnv : Env := fun _ => none

/-- The alert condition of `DataQualityMonitor.send_alert`:
`quality_score < self.alert_settings['alert_threshold'] * 100`. -/
def alertFires (score : ℚ) (s : AlertSettings) : Bool :=
  decide (score < s.alert_threshold * 100)

/-- The alert settings `__init__` builds on the empty environment. -/
def defaultAlertSettings : AlertSettings :=
  { email_enabled := true
    email_recipients := [""]
    slack_webhook := ""
    alert_threshold := 9/10 }

/-! ### `PipelineMonitor._send_alert` (channel isolation) -/

/-- A per-channel delivery failure (network error, SMTP error, ...). -/
inductive ChannelErr
  | sendFailure
  deriving DecidableEq

/-- The alert-channel configuration of `PipelineMonitor.__init__`
(`slack_webhook`, `email_recipients`). -/
structure PMAlertSettings where
  slack_webhook : String
  email_recipients : List String

/-- What each channel would do if attempted in this dispatch (the behaviour
of the external collaborator). -/
structure ChannelBehavior where
  slack : Except ChannelErr Unit
  email : Except ChannelErr Unit

/-- The per-channel outcome of one `_send_alert` call. -/
structure DispatchOutcome where
  slackAttempted : Bool
  slackDelivered : Bool
  emailAttempted : Bool
  emailDelivered : Bool
  deriving DecidableEq

/-- `PipelineMonitor._send_alert`: the Slack branch runs iff the webhook
string is non-empty and its `try/except` swallows any delivery error; the
email branch runs iff the recipient list is non-empty (Python truthiness)
and likewise swallows its error.  The `Except ChannelErr` result type records
whether any exception escapes to the caller: none ever does. -/
def sendAlertPM (cfg : PMAlertSettings) (beh : ChannelBehavior) :
    Except ChannelErr DispatchOutcome :=
  let s :=
    if cfg.slack_webhook ≠ "" then
      match beh.slack with
      | Except.ok _ => (true, true)
      | Except.error _ => (true, false)
    else (false, false)
  let e :=
    if cfg.email_recipients ≠ [] then
      match beh.email with
      | Except.ok _ => (true, true)
      | Except.error _ => (true, false)
    else (false, false)
  Except.ok
    { slackAttempted := s.1
      slackDelivered := s.2
      emailAttempted := e.1
      emailDelivered := e.2 }

/-- `DataQualityMonitor.send_alert` together with its helpers
`_send_email_alert` and `_send_slack_alert`.  When the score is below the
alert ceiling, the email branch runs iff `email_enabled` is set and the
recipient list is non-empty (Python truthiness), then the Slack branch runs
iff the webhook string is non-empty; each helper wraps its whole delivery in
`try/except` and swallows any exception, so neither branch can stop the
other and nothing escapes to the caller.  When the score is at or above the
ceiling, `send_alert` returns without attempting any channel.  The
`Except ChannelErr` result type records whether any exception escapes: none
ever does. -/
def sendAlertDQ (s : AlertSettings) (score : ℚ) (beh : ChannelBehavior) :
    Except ChannelErr DispatchOutcome :=
  if alertFires score s then
    let e :=
      if s.email_enabled = true ∧ s.email_recipients ≠ [] then
        match beh.email with
        | Except.ok _ => (true, true)
        | Except.error _ => (true, false)
      else (false, false)
    let sl :=
      if s.slack_webhook ≠ "" then
        match beh.slack with
        | Except.ok _ => (true, true)
        | Except.error _ => (true, false)
      else (false, false)
    Except.ok
      { slackAttempted := sl.1
        slackDelivered := sl.2
        emailAttempted := e.1
        emailDelivered := e.2 }
  else
    Except.ok
      { slackAttempted := false
        slackDelivered := false
        emailAttempted := false
        emailDelivered := false }

/-! ### `PipelineMonitor.monitor_system_resources` / `monitor_data_freshness` -/

/-- The resource gauges of the Prometheus registry (`none` = never set). -/
structure ResourceGauges where
  cpu : Option ℚ
  memory : Option ℚ
  disk : Option ℚ
  deriving DecidableEq

/-- `PipelineMonitor._check_resource_thresholds`: one alert message per
resource whose usage strictly exceeds its ceiling (all ceilings are 80). -/
def checkResourceThresholds (cpu mem disk : ℚ) : List String :=
  (if cpu > 80 then ["cpu"] else []) ++
  (if mem > 80 then ["memory"] else []) ++
  (if disk > 80 then ["disk"] else [])

/-- One iteration of the `while True` loop of `monitor_system_resources`.
The three psutil samples run in order and each gauge is set immediately after
its sample; an exception anywhere in the `try` block jumps to the handler,
which logs and sleeps the same 60 seconds as the success path.  Result:
(gauges after the cycle, alerts sent, seconds slept). -/
def resourceCycle (cpuS memS diskS : Except Unit ℚ) (g : ResourceGauges) :
    ResourceGauges × List String × Nat :=
  match cpuS with
  | Except.error _ => (g, [], 60)
  | Except.ok cv =>
    let g1 := { g with cpu := some cv }
    match memS with
    | Except.error _ => (g1, [], 60)
    | Except.ok mv =>
      let g2 := { g1 with memory := some mv }
      match diskS with
      | Except.error _ => (g2, [], 60)
      | Except.ok dv =>
        let g3 := { g2 with disk := some dv }
        (g3, checkResourceThresholds cv mv dv, 60)

/-- One iteration of the `while True` loop of `monitor_data_freshness`: the
sample is the connect-and-query for `MAX(date)`; on failure the
`data_freshness` gauge keeps its previous value and the loop sleeps its
normal 3600 seconds, the same as on success. -/
def freshnessCycle (sample : Except Unit ℚ) (now freshTh : ℚ)
    (gauge : Option ℚ) : Option ℚ × List String × Nat :=
  match sample with
  | Except.error _ => (gauge, [], 3600)
  | Except.ok d =>
    let hrs := now - d
    (some hrs, if hrs > freshTh then ["data_stale"] else [], 3600)

/-! ### `PipelineMonitor.monitor_airflow_dags` (run watcher) -/

/-- An Airflow `DagRun` as the monitor reads it. -/
structure RunRecord where
  dag_id : String
  state : String
  start_date : ℚ
  deriving DecidableEq

/-- The `pipeline_success` / `pipeline_failure` counters. -/
structure RunCounters where
  success : Nat
  failure : Nat
  deriving DecidableEq

/-- The query filter `DagRun.start_date >= datetime.now() - timedelta(hours=24)`. -/
def recentRuns (allRuns : List RunRecord) (now : ℚ) : List RunRecord :=
  allRuns.filter (fun r => now - 24 ≤ r.start_date)

/-- The body of the `for run in recent_runs` loop: a success increments the
success counter; a failure increments the failure counter and sends one
alert (recorded as the run it names); other states do nothing. -/
def dagPollStep (acc : RunCounters × List RunRecord) (r : RunRecord) :
    RunCounters × List RunRecord :=
  if r.state = "success" then
    ({ acc.1 with success := acc.1.success + 1 }, acc.2)
  else if r.state = "failed" then
    ({ acc.1 with failure := acc.1.failure + 1 }, acc.2 ++ [r])
  else acc

/-- One polling iteration of `monitor_airflow_dags`: classify every run in
the recent window, starting from the current counters, with no memory of
runs seen in earlier iterations. -/
def dagPollCycle (runs : List RunRecord) (c : RunCounters) :
    RunCounters × List RunRecord :=
  runs.foldl dagPollStep (c, [])

/-- Consecutive polling iterations at the given clock instants, accumulating
every alert sent. -/
def dagPollSequence (allRuns : List RunRecord) (times : List ℚ)
    (c : RunCounters) : RunCounters × List RunRecord :=
  times.foldl (fun acc t =>
    let step := dagPollCycle (recentRuns allRuns t) acc.1
    (step.1, acc.2 ++ step.2)) (c, [])

/-! ### Concrete datasets used to exercise the embedding -/

/-- The column schema of the monitored fact table (the columns the quality
checks look at). -/
def cols6 : List (String × ColTy) :=
  [("date", ColTy.datetime), ("total_rentals", ColTy.numeric),
   ("casual_users", ColTy.numeric), ("registered_users", ColTy.numeric)]

/-- A clean row: timestamp 0, `total_rentals = casual_users + registered_users`. -/
def goodRow : Row := fun c =>
  if c = "date" then Cell.dateVal 0
  else if c = "total_rentals" then Cell.intVal 10
  else if c = "casual_users" then Cell.intVal 4
  else if c = "registered_users" then Cell.intVal 6
  else Cell.null

/-- A row violating the user-count invariant (10 ≠ 4 + 5). -/
def badRow : Row := fun c =>
  if c = "date" then Cell.dateVal 0
  else if c = "total_rentals" then Cell.intVal 10
  else if c = "casual_users" then Cell.intVal 4
  else if c = "registered_users" then Cell.intVal 5
  else Cell.null

/-- 100 rows, 3 of them inconsistent, no nulls, no negatives, latest
timestamp 0: the dataset of the specification's example scenario 4. -/
def df6 : DataFrame :=
  { cols := cols6, rows := List.replicate 97 goodRow ++ List.replicate 3 badRow }

/-- A one-row clean dataset. -/
def dfOne : DataFrame := { cols := cols6, rows := [goodRow] }

/-- The zero-row dataset (full schema, no rows). -/
def dfEmpty : DataFrame := { cols := cols6, rows := [] }

/-- A non-empty dataset without a `date` column. -/
def dfNoDate : DataFrame :=
  { cols := [("total_rentals", ColTy.numeric), ("casual_users", ColTy.numeric),
             ("registered_users", ColTy.numeric)],
    rows := [goodRow] }

/-- A non-empty dataset with a `date` column but without the consistency
invariant's columns. -/
def dfNoCons : DataFrame :=
  { cols := [("date", ColTy.datetime)], rows := [goodRow] }

/-- A failed Airflow run that started at hour 5. -/
def failedRun : RunRecord :=
  { dag_id := "bikeshare_pipeline", state := "failed", start_date := 5 }

/-! ### Helper lemmas -/

/-- A dimension pass rate produced by `fracPass` lies in `[0, 1]`. -/
theorem fracPass_ok_bounds {M : Type} {l : List (String × M)} {passes : M → Bool}
    {q : ℚ} (h : fracPass l passes = Except.ok q) : 0 ≤ q ∧ q ≤ 1 := by
  unfold fracPass at h
  by_cases hl : l.length = 0
  · rw [if_pos hl] at h
    exact absurd h (by simp)
  · rw [if_neg hl] at h
    have hq : ((l.countP (fun p => passes p.2) : ℚ) / (l.length : ℚ)) = q :=
      Except.ok.inj h
    have hlen : (0 : ℚ) < (l.length : ℚ) := by
      exact_mod_cast Nat.pos_of_ne_zero hl
    constructor
    · rw [← hq]
      exact div_nonneg (by positivity) hlen.le
    · rw [← hq]
      rw [div_le_one hlen]
      exact_mod_cast List.countP_le_length _

/-- Rounding to hundredths keeps a value of `[0, 100]` inside `[0, 100]`. -/
theorem pyRound2_bounds {q : ℚ} (h0 : 0 ≤ q) (h100 : q ≤ 100) :
    0 ≤ pyRound2 q ∧ pyRound2 q ≤ 100 := by
  have hlo : (0 : ℤ) ≤ round (q * 100) := by
    rw [round_eq]
    exact Int.floor_nonneg.mpr (by linarith)
  have hhi : round (q * 100) ≤ 10000 := by
    rw [round_eq]
    have h : ⌊q * 100 + 1 / 2⌋ < (10001 : ℤ) := Int.floor_lt.mpr (by push_cast; linarith)
    omega
  unfold pyRound2
  constructor
  · have hc : (0 : ℚ) ≤ ((round (q * 100) : ℤ) : ℚ) := by exact_mod_cast hlo
    positivity
  · rw [div_le_iff₀ (by norm_num : (0:ℚ) < 100)]
    have hc : ((round (q * 100) : ℤ) : ℚ) ≤ 10000 := by exact_mod_cast hhi
    linarith

/-- Whenever `calculate_quality_score` returns a score, it is in `[0, 100]`. -/
theorem calcScore_ok_bounds {m : QMetrics} {s : ℚ}
    (h : calculateQualityScore m = Except.ok s) : 0 ≤ s ∧ s ≤ 100 := by
  unfold calculateQualityScore at h
  cases hc : fracPass m.completeness (fun x => x.is_complete) with
  | error e => simp only [hc] at h; exact Except.noConfusion h
  | ok sc =>
  simp only [hc] at h
  cases ha : fracPass m.accuracy (fun x => x.is_accurate) with
  | error e => simp only [ha] at h; exact Except.noConfusion h
  | ok sa =>
  simp only [ha] at h
  cases ht : m.timeliness with
  | none => simp only [ht] at h; exact Except.noConfusion h
  | some t =>
  simp only [ht] at h
  cases ho : fracPass m.consistency (fun x => x.is_consistent) with
  | error e => simp only [ho] at h; exact Except.noConfusion h
  | ok so =>
  simp only [ho, Except.ok.injEq] at h
  obtain ⟨hc0, hc1⟩ := fracPass_ok_bounds hc
  obtain ⟨ha0, ha1⟩ := fracPass_ok_bounds ha
  obtain ⟨ho0, ho1⟩ := fracPass_ok_bounds ho
  have hst : (0 : ℚ) ≤ (if t.is_timely then (1:ℚ) else 0) ∧
      (if t.is_timely then (1:ℚ) else 0) ≤ 1 := by
    split <;> norm_num
  rw [← h]
  have hwc : weightOf "completeness" = 3/10 := rfl
  have hwa : weightOf "accuracy" = 3/10 := rfl
  have hwt : weightOf "timeliness" = 2/10 := rfl
  have hwo : weightOf "consistency" = 2/10 := rfl
  rw [hwc, hwa, hwt, hwo]
  exact pyRound2_bounds (by nlinarith [hst.1, hst.2]) (by nlinarith [hst.1, hst.2])

/-- A non-empty metrics dict yields its pass rate without raising. -/
theorem fracPass_ok_of_ne_nil {M : Type} (l : List (String × M)) (f : M → Bool)
    (h : l ≠ []) :
    fracPass l f = Except.ok ((l.countP (fun p => f p.2) : ℚ) / (l.length : ℚ)) := by
  unfold fracPass
  rw [if_neg (by simpa [List.length_eq_zero] using h)]

/-- Decidable equality of embedded Python results, used to evaluate the
embedding on concrete inputs. -/
instance exceptDecEq {e a : Type} [DecidableEq e] [DecidableEq a] :
    DecidableEq (Except e a) := fun x y =>
  match x, y with
  | Except.ok u, Except.ok v =>
    if h : u = v then Decidable.isTrue (by rw [h])
    else Decidable.isFalse (fun hc => h (Except.ok.inj hc))
  | Except.error u, Except.error v =>
    if h : u = v then Decidable.isTrue (by rw [h])
    else Decidable.isFalse (fun hc => h (Except.error.inj hc))
  | Except.ok _, Except.error _ => Decidable.isFalse (fun hc => Except.noConfusion hc)
  | Except.error _, Except.ok _ => Decidable.isFalse (fun hc => Except.noConfusion hc)

/-! ### Claim theorems -/

/-- C1: the specification demands that evaluating a zero-row dataset fail
with an `EmptyDatasetError` and that metric counts are never divided by the
row count.  The code has no such error type: on the zero-row dataframe,
`check_completeness` divides each column's null count by the zero row count
(numpy NaN, modelled `none`, every column marked not complete), and the run
then aborts inside `check_timeliness` with the `ValueError` that
`NaT.strftime` raises — no report and no score are produced, but via the
wrong mechanism. -/
theorem C1_empty_dataset_divides_and_raises_valueerror :
    (checkCompleteness dfEmpty defaultThresholds).map
        (fun p => (p.1, p.2.null_percentage, p.2.is_complete)) =
      [("date", none, false), ("total_rentals", none, false),
       ("casual_users", none, false), ("registered_users", none, false)] ∧
    runChecks dfEmpty defaultThresholds 30 = Except.error PyErr.valueError := by
  constructor <;> rfl

/-- C2 counterexample: the claim says two runs on an identical dataset with
identical thresholds produce an identical report because "now" is an
explicit input.  In the source, `check_timeliness` and `check_accuracy` call
`datetime.now()` internally; evaluating the same one-row dataset (latest
record at hour 0) with the same thresholds at wall-clock hour 10 versus hour
31 yields different reports (scores 100 and 80). -/
theorem C2_hidden_clock_counterexample :
    evaluateScore dfOne defaultThresholds 10 ≠
      evaluateScore dfOne defaultThresholds 31 := by
  have h1 : evaluateScore dfOne defaultThresholds 10 = Except.ok 100 := by
    with_unfolding_all rfl
  have h2 : evaluateScore dfOne defaultThresholds 31 = Except.ok 80 := by
    with_unfolding_all rfl
  rw [h1, h2]
  intro hcon
  have h := Except.ok.inj hcon
  norm_num at h

/-- C2 amended: the evaluation is a deterministic function of the dataset,
the thresholds, and the clock instant sampled inside the checks — two runs
agree whenever the `datetime.now()` values they read agree, not
unconditionally. -/
theorem C2_deterministic_given_explicit_now (df : DataFrame) (th : Thresholds)
    (now nowB : ℚ) (h : now = nowB) :
    runChecks df th now = runChecks df th nowB ∧
    evaluateScore df th now = evaluateScore df th nowB := by
  subst h
  exact ⟨rfl, rfl⟩

theorem C2_deterministic_given_explicit_now_witness :
    runChecks dfOne defaultThresholds 10 = runChecks dfOne defaultThresholds 10 ∧
    evaluateScore dfOne defaultThresholds 10 = evaluateScore dfOne defaultThresholds 10 :=
  C2_deterministic_given_explicit_now dfOne defaultThresholds 10 10 rfl

/-- C3 counterexample: the claim says that at configuration load a missing
required threshold (configuration is environment-sourced per the
specification) raises a `ConfigValidationError` and the process does not
start.  With every configuration variable unset, `__init__` succeeds,
silently installing the hard-coded thresholds and alert settings: no
validation of any kind runs. -/
theorem C3_no_validation_counterexample :
    initMonitor emptyEnv = Except.ok
      { conn_params :=
          { account := none, user := none, password := none, database := none,
            schemaName := none, warehouse := none, role := none }
        thresholds := defaultThresholds
        alert_settings := defaultAlertSettings } := by
  with_unfolding_all rfl

/-- C3 amended: no configuration-load validation exists.  `__init__` never
raises a `ConfigValidationError` for any environment, the thresholds it
installs are the hard-coded defaults regardless of the environment, and the
dimension weights are a hard-coded constant inside
`calculate_quality_score` that happens to sum to 1. -/
theorem C3_init_never_fails_and_weights_sum_one :
    (∀ env : Env, initMonitor env ≠ Except.error ConfigError.configValidation) ∧
    (∀ env : Env, Except.map (fun st => st.thresholds) (initMonitor env) =
      Except.ok defaultThresholds) ∧
    (weights.map Prod.snd).sum = 1 := by
  refine ⟨fun env h => Except.noConfusion h, fun env => rfl, by norm_num [weights]⟩

/-- C4 counterexample: the claim says the failure alert is dispatched at
most once per run identifier even when the run is observed in consecutive
polls.  A run that failed at hour 5 is inside the 24-hour query window of
both the poll at hour 6 and the poll at hour 6:05 (5 minutes later); the
loop has no dedup state, so it alerts for the same run in both cycles and
double-increments the failure counter. -/
theorem C4_duplicate_alert_counterexample :
    (dagPollSequence [failedRun] [6, 6 + 1/12] { success := 0, failure := 0 }).2 =
      [failedRun, failedRun] ∧
    (dagPollSequence [failedRun] [6, 6 + 1/12]
      { success := 0, failure := 0 }).1.failure = 2 := by
  constructor <;> with_unfolding_all rfl

set_option maxRecDepth 10000 in
/-- C6 counterexample: the specification's scenario 4 predicts an overall
score of 79.4 (weighting the consistency *percentage* 0.97 into the score).
The code weights the consistency *pass rate*: the single user-count check
passes (97% ≥ 95%), so the consistency dimension contributes its full 0.2
and the score is 80.0, not 79.4. -/
theorem C6_score_is_80_not_79_4 :
    evaluateScore df6 defaultThresholds 30 ≠ Except.ok (794/10) := by
  have h : evaluateScore df6 defaultThresholds 30 = Except.ok 80 := by
    with_unfolding_all rfl
  rw [h]
  intro hcon
  have h2 := Except.ok.inj hcon
  norm_num at h2

set_option maxRecDepth 10000 in
/-- C6 amended: for the scenario dataset (100 rows, 3 inconsistent, no
nulls, no negatives, latest record 30 hours old against timeliness threshold
24), the consistency check reports 97.0% and passes, the overall score is
80.0, and since 80 is below the alert ceiling of 90 an alert is
dispatched. -/
theorem C6_scenario_score_80_alert_fires :
    checkConsistency df6 defaultThresholds = Except.ok
      [("user_counts",
        { inconsistent_rows := 3, consistency_percentage := 97,
          is_consistent := true })] ∧
    evaluateScore df6 defaultThresholds 30 = Except.ok 80 ∧
    alertFires 80 defaultAlertSettings = true := by
  refine ⟨by with_unfolding_all rfl, by with_unfolding_all rfl, by with_unfolding_all rfl⟩

/-- C9 counterexample: the claim says a failing watcher cycle leaves every
previously published gauge unchanged.  In a cycle where the CPU sample
succeeds (reading 50) and the memory sample then raises, the CPU gauge has
already been overwritten: its previous value 10 is gone. -/
theorem C9_partial_update_counterexample :
    (resourceCycle (Except.ok 50) (Except.error ()) (Except.error ())
        { cpu := some 10, memory := some 20, disk := some 30 }).1.cpu = some 50 ∧
    (resourceCycle (Except.ok 50) (Except.error ()) (Except.error ())
        { cpu := some 10, memory := some 20, disk := some 30 }).1.cpu ≠ some 10 := by
  constructor
  · rfl
  · intro h
    have h2 : (some (50:ℚ)) = some 10 := h
    have h3 := Option.some.inj h2
    norm_num at h3

/-- `calculate_quality_score` raises `KeyError` on an empty timeliness dict
(given that the completeness and accuracy dicts are non-empty, whose pass
rates are computed first). -/
theorem calcScore_keyError {m : QMetrics} (hc : m.completeness ≠ [])
    (ha : m.accuracy ≠ []) (ht : m.timeliness = none) :
    calculateQualityScore m = Except.error PyErr.keyError := by
  unfold calculateQualityScore
  rw [fracPass_ok_of_ne_nil _ _ hc, fracPass_ok_of_ne_nil _ _ ha, ht]

/-- `calculate_quality_score` raises `ZeroDivisionError` on an empty
consistency dict once the earlier dimensions got through. -/
theorem calcScore_zeroDivision {m : QMetrics} {t : TimelMetric}
    (hc : m.completeness ≠ []) (ha : m.accuracy ≠ [])
    (ht : m.timeliness = some t) (hs : m.consistency = []) :
    calculateQualityScore m = Except.error PyErr.zeroDivision := by
  unfold calculateQualityScore
  rw [fracPass_ok_of_ne_nil _ _ hc, fracPass_ok_of_ne_nil _ _ ha, ht, hs]
  rfl

/-- A score is only returned when the timeliness dict is non-empty and the
consistency dict is non-empty. -/
theorem calcScore_ok_shape {m : QMetrics} {s : ℚ}
    (h : calculateQualityScore m = Except.ok s) :
    m.timeliness.isSome = true ∧ m.consistency ≠ [] := by
  unfold calculateQualityScore at h
  cases hc : fracPass m.completeness (fun x => x.is_complete) with
  | error e => simp only [hc] at h; exact Except.noConfusion h
  | ok sc =>
  simp only [hc] at h
  cases ha : fracPass m.accuracy (fun x => x.is_accurate) with
  | error e => simp only [ha] at h; exact Except.noConfusion h
  | ok sa =>
  simp only [ha] at h
  cases ht : m.timeliness with
  | none => simp only [ht] at h; exact Except.noConfusion h
  | some t =>
  simp only [ht] at h
  cases ho : fracPass m.consistency (fun x => x.is_consistent) with
  | error e => simp only [ho] at h; exact Except.noConfusion h
  | ok so =>
  refine ⟨rfl, ?_⟩
  intro hnil
  rw [hnil] at ho
  simp [fracPass] at ho

/-- `check_completeness` reports one entry per dataframe column. -/
theorem checkCompleteness_ne_nil {df : DataFrame} {th : Thresholds}
    (h : df.cols ≠ []) : checkCompleteness df th ≠ [] := by
  simp only [checkCompleteness, ne_eq, List.map_eq_nil_iff]
  exact h

/-- `check_accuracy` reports at least one entry when the dataframe has a
numeric column. -/
theorem checkAccuracy_ne_nil_of_numeric {df : DataFrame} {now : ℚ}
    (h : df.numericCols ≠ []) : checkAccuracy df now ≠ [] := by
  simp only [checkAccuracy]
  by_cases hd : df.hasCol "date" = true
  · rw [if_pos hd]
    simp
  · rw [if_neg hd]
    simpa using h

/-- `check_accuracy` reports at least the date entry when the dataframe has
a date column. -/
theorem checkAccuracy_ne_nil_of_date {df : DataFrame} {now : ℚ}
    (h : df.hasCol "date" = true) : checkAccuracy df now ≠ [] := by
  simp only [checkAccuracy]
  rw [if_pos h]
  simp

/-- Only a dataframe with a date column makes `check_timeliness` return a
non-empty metrics dict. -/
theorem checkTimeliness_some_hasCol {df : DataFrame} {th : Thresholds}
    {now : ℚ} {t : TimelMetric}
    (h : checkTimeliness df th now = Except.ok (some t)) :
    df.hasCol "date" = true := by
  by_cases hd : df.hasCol "date" = true
  · exact hd
  · exfalso
    unfold checkTimeliness at h
    rw [if_neg hd] at h
    simp at h

/-- Only a dataframe with all three user-count columns makes
`check_consistency` return a non-empty metrics dict. -/
theorem checkConsistency_ne_nil_hasCols {df : DataFrame} {th : Thresholds}
    {l : List (String × ConsMetric)}
    (h : checkConsistency df th = Except.ok l) (hne : l ≠ []) :
    df.hasConsistencyCols = true := by
  by_cases hc : df.hasConsistencyCols = true
  · exact hc
  · exfalso
    unfold checkConsistency at h
    rw [if_neg hc] at h
    exact hne (Except.ok.inj h).symm

/-- C9 amended: a cycle that fails before any sample is taken leaves the
whole registry unchanged, sends no alert, and sleeps the same fixed interval
as a successful cycle (60 s for the resource watcher, 3600 s for the
freshness watcher — no backoff, no crash); a mid-cycle failure stops further
updates but gauges set earlier in the same cycle keep their new values. -/
theorem C9_failure_frame :
    (∀ (memS diskS : Except Unit ℚ) (g : ResourceGauges),
      resourceCycle (Except.error ()) memS diskS g = (g, [], 60)) ∧
    (∀ (cpuS memS diskS : Except Unit ℚ) (g : ResourceGauges),
      (resourceCycle cpuS memS diskS g).2.2 = 60) ∧
    (∀ (cv : ℚ) (diskS : Except Unit ℚ) (g : ResourceGauges),
      resourceCycle (Except.ok cv) (Except.error ()) diskS g =
        ({ g with cpu := some cv }, [], 60)) ∧
    (∀ (now freshTh : ℚ) (gauge : Option ℚ),
      freshnessCycle (Except.error ()) now freshTh gauge = (gauge, [], 3600)) ∧
    (∀ (sample : Except Unit ℚ) (now freshTh : ℚ) (gauge : Option ℚ),
      (freshnessCycle sample now freshTh gauge).2.2 = 3600) := by
  refine ⟨fun _ _ _ => rfl, ?_, fun _ _ _ => rfl, fun _ _ _ => rfl, ?_⟩
  · intro cpuS memS diskS g
    cases cpuS <;> cases memS <;> cases diskS <;> rfl
  · intro sample now freshTh gauge
    cases sample <;> rfl

/-- The run-classification loop of `monitor_airflow_dags`: one pass over the
recent runs adds the number of `success` runs to the success counter, the
number of `failed` runs to the failure counter, and emits one alert per
`failed` run. -/
theorem dagPollStep_foldl (runs : List RunRecord) (c : RunCounters)
    (pre : List RunRecord) :
    runs.foldl dagPollStep (c, pre) =
      ({ success := c.success + runs.countP (fun r => r.state = "success"),
         failure := c.failure + runs.countP (fun r => r.state = "failed") },
       pre ++ runs.filter (fun r => r.state = "failed")) := by
  induction runs generalizing c pre with
  | nil => simp
  | cons r rs ih =>
    rw [List.foldl_cons]
    by_cases h1 : r.state = "success"
    · have h2 : ¬ r.state = "failed" := by rw [h1]; decide
      have hstep : dagPollStep (c, pre) r =
          ({ success := c.success + 1, failure := c.failure }, pre) := by
        simp [dagPollStep, h1]
      have hcs : List.countP (fun x => x.state = "success") (r :: rs) =
          List.countP (fun x => x.state = "success") rs + 1 := by
        simp [List.countP_cons, h1]
      have hcf : List.countP (fun x => x.state = "failed") (r :: rs) =
          List.countP (fun x => x.state = "failed") rs := by
        simp [List.countP_cons, h2]
      have hfl : List.filter (fun x => x.state = "failed") (r :: rs) =
          List.filter (fun x => x.state = "failed") rs := by
        simp [List.filter_cons, h2]
      rw [hstep, ih, hcs, hcf, hfl]
      simp only [Prod.mk.injEq, RunCounters.mk.injEq]
      refine ⟨⟨?_, ?_⟩, ?_⟩ <;> first | omega | simp
    · by_cases h2 : r.state = "failed"
      · have hstep : dagPollStep (c, pre) r =
            ({ success := c.success, failure := c.failure + 1 }, pre ++ [r]) := by
          simp [dagPollStep, h1, h2]
        have hcs : List.countP (fun x => x.state = "success") (r :: rs) =
            List.countP (fun x => x.state = "success") rs := by
          simp [List.countP_cons, h1]
        have hcf : List.countP (fun x => x.state = "failed") (r :: rs) =
            List.countP (fun x => x.state = "failed") rs + 1 := by
          simp [List.countP_cons, h2]
        have hfl : List.filter (fun x => x.state = "failed") (r :: rs) =
            r :: List.filter (fun x => x.state = "failed") rs := by
          simp [List.filter_cons, h2]
        rw [hstep, ih, hcs, hcf, hfl]
        simp only [Prod.mk.injEq, RunCounters.mk.injEq]
        refine ⟨⟨?_, ?_⟩, ?_⟩ <;> first | omega | simp
      · have hstep : dagPollStep (c, pre) r = (c, pre) := by
          simp [dagPollStep, h1, h2]
        have hcs : List.countP (fun x => x.state = "success") (r :: rs) =
            List.countP (fun x => x.state = "success") rs := by
          simp [List.countP_cons, h1]
        have hcf : List.countP (fun x => x.state = "failed") (r :: rs) =
            List.countP (fun x => x.state = "failed") rs := by
          simp [List.countP_cons, h2]
        have hfl : List.filter (fun x => x.state = "failed") (r :: rs) =
            List.filter (fun x => x.state = "failed") rs := by
          simp [List.filter_cons, h2]
        rw [hstep, ih, hcs, hcf, hfl]

/-- C4 amended: the run watcher keeps no per-run dedup state.  Every polling
cycle classifies every terminal run currently in the recent window afresh:
it adds the window's success and failure counts to the counters and sends
one failure alert per failed run in the window, so a failed run that stays
in the 24-hour window across consecutive polls is alerted and counted once
per poll, not once ever. -/
theorem C4_every_cycle_recounts_window :
    (∀ (runs : List RunRecord) (c : RunCounters),
      dagPollCycle runs c =
        ({ success := c.success + runs.countP (fun r => r.state = "success"),
           failure := c.failure + runs.countP (fun r => r.state = "failed") },
         runs.filter (fun r => r.state = "failed"))) ∧
    (∀ (allRuns : List RunRecord) (t1 t2 : ℚ) (c : RunCounters),
      (dagPollSequence allRuns [t1, t2] c).2 =
        (recentRuns allRuns t1).filter (fun r => r.state = "failed") ++
        (recentRuns allRuns t2).filter (fun r => r.state = "failed")) := by
  have hcycle : ∀ (runs : List RunRecord) (c : RunCounters),
      dagPollCycle runs c =
        ({ success := c.success + runs.countP (fun r => r.state = "success"),
           failure := c.failure + runs.countP (fun r => r.state = "failed") },
         runs.filter (fun r => r.state = "failed")) := by
    intro runs c
    have h := dagPollStep_foldl runs c []
    simpa [dagPollCycle] using h
  refine ⟨hcycle, ?_⟩
  intro allRuns t1 t2 c
  simp [dagPollSequence, hcycle]

/-- C5: for every metrics dict accepted by `calculate_quality_score` and
every dataset, thresholds and clock accepted end to end by the evaluation,
the returned overall quality score lies in the closed interval [0, 100]. -/
theorem C5_score_in_range :
    (∀ (m : QMetrics) (s : ℚ),
      calculateQualityScore m = Except.ok s → 0 ≤ s ∧ s ≤ 100) ∧
    (∀ (df : DataFrame) (th : Thresholds) (now : ℚ) (s : ℚ),
      evaluateScore df th now = Except.ok s → 0 ≤ s ∧ s ≤ 100) := by
  refine ⟨fun m s h => calcScore_ok_bounds h, ?_⟩
  intro df th now s h
  unfold evaluateScore at h
  cases hr : runChecks df th now with
  | error e => simp only [hr] at h; exact Except.noConfusion h
  | ok m =>
    simp only [hr] at h
    exact calcScore_ok_bounds h

theorem C5_score_in_range_witness :
    evaluateScore dfOne defaultThresholds 10 = Except.ok 100 ∧
    (0 ≤ (100 : ℚ) ∧ (100 : ℚ) ≤ 100) := by
  have h : evaluateScore dfOne defaultThresholds 10 = Except.ok 100 := by
    with_unfolding_all rfl
  exact ⟨h, C5_score_in_range.2 dfOne defaultThresholds 10 100 h⟩

/-- C7: the completeness boundary is inclusive.  For every non-empty row
count and completeness threshold, a column whose null percentage equals
exactly `(1 - threshold) * 100` is marked complete, and one more null row
(strictly above the bound) makes it not complete. -/
theorem C7_completeness_boundary (r n : Nat) (t : ℚ) (hr : 0 < r)
    (hb : ((n : ℚ) / (r : ℚ)) * 100 = (1 - t) * 100) :
    (colCompleteness n r t).is_complete = true ∧
    (colCompleteness (n + 1) r t).is_complete = false := by
  have hr0 : r ≠ 0 := hr.ne'
  have hrq : (0 : ℚ) < (r : ℚ) := by exact_mod_cast hr
  have hproj : ∀ k : Nat, (colCompleteness k r t).is_complete =
      decide (((k : ℚ) / (r : ℚ)) * 100 ≤ (1 - t) * 100) := by
    intro k
    unfold colCompleteness
    rw [if_neg hr0]
  constructor
  · rw [hproj n, hb]
    simp
  · rw [hproj (n + 1)]
    have hstep : (((n + 1 : Nat) : ℚ) / (r : ℚ)) * 100 =
        ((n : ℚ) / (r : ℚ)) * 100 + 100 / (r : ℚ) := by
      push_cast
      field_simp
      ring
    have hpos : 0 < 100 / (r : ℚ) := by positivity
    simp only [decide_eq_false_iff_not, not_le, hstep, ← hb]
    linarith

theorem C7_completeness_boundary_witness :
    (colCompleteness 5 100 (95/100)).is_complete = true ∧
    (colCompleteness 6 100 (95/100)).is_complete = false :=
  C7_completeness_boundary 100 5 (95/100) (by norm_num) (by norm_num)

/-- C8: alert delivery channels are isolated, on both dispatch paths.
`PipelineMonitor._send_alert` and `DataQualityMonitor.send_alert` (with
`_send_email_alert` / `_send_slack_alert`) never let a channel exception
escape to their caller, and each channel is attempted exactly when the alert
condition and that channel's own configuration enable it — the attempt
booleans do not depend on the channel behaviours at all, so a delivery
failure on one channel never prevents the other channel from being
attempted. -/
theorem C8_channel_isolation (cfg : PMAlertSettings) (s : AlertSettings)
    (score : ℚ) (beh behDQ : ChannelBehavior) :
    ((sendAlertPM cfg beh).isOk = true ∧
      Except.map (fun o => o.emailAttempted) (sendAlertPM cfg beh) =
        Except.ok (decide (cfg.email_recipients ≠ [])) ∧
      Except.map (fun o => o.slackAttempted) (sendAlertPM cfg beh) =
        Except.ok (decide (cfg.slack_webhook ≠ ""))) ∧
    ((sendAlertDQ s score behDQ).isOk = true ∧
      Except.map (fun o => o.emailAttempted) (sendAlertDQ s score behDQ) =
        Except.ok (alertFires score s &&
          decide (s.email_enabled = true ∧ s.email_recipients ≠ [])) ∧
      Except.map (fun o => o.slackAttempted) (sendAlertDQ s score behDQ) =
        Except.ok (alertFires score s && decide (s.slack_webhook ≠ ""))) := by
  constructor
  · unfold sendAlertPM
    by_cases h1 : cfg.slack_webhook = "" <;> by_cases h2 : cfg.email_recipients = [] <;>
      cases hb1 : beh.slack <;> cases hb2 : beh.email <;>
        simp [h1, h2, Except.map, Except.isOk, Except.toBool]
  · unfold sendAlertDQ
    by_cases hf : alertFires score s = true <;>
      by_cases h1 : s.slack_webhook = "" <;>
        by_cases h2 : s.email_enabled = true ∧ s.email_recipients ≠ [] <;>
          cases hb1 : behDQ.slack <;> cases hb2 : behDQ.email <;>
            simp [hf, h1, h2, Except.map, Except.isOk, Except.toBool]

/-- C10: the implicit column preconditions of the quality evaluation.  A
non-empty dataset without a `date` column makes `check_timeliness` return
the empty dict and the score computation then dies with a `KeyError`; a
dataset with a usable date column but without all the user-count columns
makes `check_consistency` return the empty dict and the score computation
then dies with a `ZeroDivisionError`; consequently a score is only produced
when the date column and all declared consistency columns are present. -/
theorem C10_score_requires_columns :
    (∀ (df : DataFrame) (th : Thresholds) (now : ℚ),
      df.rows ≠ [] → df.numericCols ≠ [] → df.hasCol "date" = false →
      checkTimeliness df th now = Except.ok none ∧
      evaluateScore df th now = Except.error PyErr.keyError) ∧
    (∀ (df : DataFrame) (th : Thresholds) (now : ℚ) (d : ℚ),
      df.hasCol "date" = true → df.maxDate = some d →
      df.hasConsistencyCols = false →
      checkConsistency df th = Except.ok [] ∧
      evaluateScore df th now = Except.error PyErr.zeroDivision) ∧
    (∀ (df : DataFrame) (th : Thresholds) (now : ℚ) (s : ℚ),
      evaluateScore df th now = Except.ok s →
      df.hasCol "date" = true ∧ df.hasConsistencyCols = true) := by
  refine ⟨?_, ?_, ?_⟩
  · intro df th now hrows hnum hdate
    have hT : checkTimeliness df th now = Except.ok none := by
      unfold checkTimeliness
      rw [if_neg (by simp [hdate])]
    refine ⟨hT, ?_⟩
    have hcols : df.cols ≠ [] := by
      intro hnil
      exact hnum (by simp [DataFrame.numericCols, hnil])
    obtain ⟨l, hS⟩ : ∃ l, checkConsistency df th = Except.ok l := by
      unfold checkConsistency
      by_cases hcc : df.hasConsistencyCols = true
      · rw [if_pos hcc, if_neg (by simpa [List.length_eq_zero] using hrows)]
        exact ⟨_, rfl⟩
      · rw [if_neg hcc]
        exact ⟨[], rfl⟩
    unfold evaluateScore runChecks
    simp only [hT, hS]
    exact calcScore_keyError (checkCompleteness_ne_nil hcols)
      (checkAccuracy_ne_nil_of_numeric hnum) rfl
  · intro df th now d hdate hmax hcc
    have hS : checkConsistency df th = Except.ok [] := by
      unfold checkConsistency
      rw [if_neg (by simp [hcc])]
    refine ⟨hS, ?_⟩
    have hT : checkTimeliness df th now = Except.ok (some
        { latest_date := d, hours_delay := pyRound2 (now - d),
          is_timely := decide (now - d ≤ th.timeliness) }) := by
      unfold checkTimeliness
      rw [if_pos hdate, hmax]
    have hcols : df.cols ≠ [] := by
      intro hnil
      rw [DataFrame.hasCol, hnil] at hdate
      simp at hdate
    unfold evaluateScore runChecks
    simp only [hT, hS]
    exact calcScore_zeroDivision (checkCompleteness_ne_nil hcols)
      (checkAccuracy_ne_nil_of_date hdate) rfl rfl
  · intro df th now s h
    unfold evaluateScore at h
    cases hr : runChecks df th now with
    | error e => simp only [hr] at h; exact Except.noConfusion h
    | ok m =>
    simp only [hr] at h
    obtain ⟨htl, hcons⟩ := calcScore_ok_shape h
    unfold runChecks at hr
    cases hT : checkTimeliness df th now with
    | error e => simp only [hT] at hr; exact Except.noConfusion hr
    | ok tt =>
    simp only [hT] at hr
    cases hS : checkConsistency df th with
    | error e => simp only [hS] at hr; exact Except.noConfusion hr
    | ok slist =>
    simp only [hS, Except.ok.injEq] at hr
    subst hr
    cases tt with
    | none => simp at htl
    | some tv =>
      exact ⟨checkTimeliness_some_hasCol hT,
        checkConsistency_ne_nil_hasCols hS (by simpa using hcons)⟩

theorem C10_score_requires_columns_witness :
    (checkTimeliness dfNoDate defaultThresholds 10 = Except.ok none ∧
      evaluateScore dfNoDate defaultThresholds 10 = Except.error PyErr.keyError) ∧
    (checkConsistency dfNoCons defaultThresholds = Except.ok [] ∧
      evaluateScore dfNoCons defaultThresholds 10 = Except.error PyErr.zeroDivision) ∧
    (dfOne.hasCol "date" = true ∧ dfOne.hasConsistencyCols = true) :=
  ⟨C10_score_requires_columns.1 dfNoDate defaultThresholds 10
      (by simp [dfNoDate]) (by decide) (by decide),
   C10_score_requires_columns.2.1 dfNoCons defaultThresholds 10 0
      (by decide) (by with_unfolding_all rfl) (by decide),
   C10_score_requires_columns.2.2 dfOne defaultThresholds 10 100
      (by with_unfolding_all rfl)⟩

end Bikeshare
